import Mathlib

/-!
# Verification of the v4m VM provisioning tool (src/v4m.c)

Shallow embedding of the provisioning pipeline.  The filesystem is a state
record (directories and files with abstract contents); every external
subprocess (curl, qemu-img, dd, openssl, hdiutil, qemu) is modelled by an
outcome field of an `Env` record, and each subprocess invocation as well as
each classified log message is recorded in an event trace.  Display-only
printf output (show_vm_info) is not tracked.  Machine-level randomness
(`rand` results) enters as explicit natural-number parameters.
-/

namespace V4m

/-- Configuration constant DEFAULT_DISTRO from v4m.c. -/
def DEFAULT_DISTRO : String := "debian12"

/-- Configuration constant DEFAULT_USER from v4m.c. -/
def DEFAULT_USER : String := "user01"

/-- Configuration constant DEFAULT_MEMORY from v4m.c. -/
def DEFAULT_MEMORY : String := "4096"

/-- Configuration constant DEFAULT_CPUS from v4m.c. -/
def DEFAULT_CPUS : String := "4"

/-- Configuration constant DEFAULT_DISK_SIZE from v4m.c. -/
def DEFAULT_DISK_SIZE : String := "20G"

/-- Strip everything from the first newline on: models
`s[strcspn(s, "\n")] = 0` applied to a C string. -/
def stripNewline (s : String) : String :=
  String.mk (s.data.takeWhile (fun c => c != '\n'))

/-- The truncation performed by `strncpy(dst, src, MAX_NAME - 1)`: at
most 255 characters are kept. -/
def strncpy255 (s : String) : String := String.mk (s.data.take 255)

/-- Abstract file contents: text written by the program, a zero-filled
region written by `dd`, a downloaded image, or a packaged ISO volume. -/
inductive FileData where
  | text (contents : String)
  | zeros (bytes : Nat)
  | downloaded (url : String)
  | isoImage (dir : String)
deriving DecidableEq, Repr

/-- Filesystem state: the set of existing directories and the existing
regular files with their contents. -/
structure FS where
  dirs : List String
  files : List (String × FileData)
deriving DecidableEq, Repr

/-- Observable event: a classified log message (log_info/log_success/
log_warning/log_error) or the invocation of an external command, plus the
boot-grace sleep. -/
inductive Event where
  | logInfo (msg : String)
  | logSuccess (msg : String)
  | logWarning (msg : String)
  | logError (msg : String)
  | cmd (command : String)
  | sleep (seconds : Nat)
deriving DecidableEq, Repr

/-- Environmental inputs of one `create_vm` run: process id, wall-clock
time, the formatted timestamp produced by gmtime/strftime, the three
`rand` results consumed by `generate_mac`, and the outcome of every
external subprocess or fallible `fopen`.  `hashOut` is the raw line read
from `openssl passwd -6` (`none` models popen/fgets failure). -/
structure Env where
  pid : Nat
  tNow : Nat
  created : String
  macR1 : Nat
  macR2 : Nat
  macR3 : Nat
  curlOk : Bool
  resizeOk : Bool
  ddOk : Bool
  hashOut : Option String
  userDataOpenOk : Bool
  metaDataOpenOk : Bool
  isoOk : Bool
  vmInfoOpenOk : Bool
  qemuOk : Bool
deriving DecidableEq, Repr

/-- `file_exists` from v4m.c: stat succeeds and the path is a regular
file. -/
def file_exists (fs : FS) (path : String) : Bool :=
  fs.files.any (fun f => f.1 == path)

/-- `dir_exists` from v4m.c: stat succeeds and the path is a directory. -/
def dir_exists (fs : FS) (path : String) : Bool :=
  fs.dirs.any (fun d => d == path)

/-- Effect of `mkdir(path, 0755)` (result ignored by the program). -/
def fsMkdir (fs : FS) (path : String) : FS :=
  { fs with dirs := path :: fs.dirs }

/-- Effect of writing (creating or truncating) a regular file. -/
def fsWrite (fs : FS) (path : String) (data : FileData) : FS :=
  { fs with files := (path, data) :: fs.files.filter (fun f => !(f.1 == path)) }

/-- Effect of `remove(path)` on a regular file. -/
def fsRemove (fs : FS) (path : String) : FS :=
  { fs with files := fs.files.filter (fun f => !(f.1 == path)) }

/-- Does `pre` occur as a leading substring of `s` (on code points)? -/
def pathHasPre (pre s : String) : Bool := pre.data.isPrefixOf s.data

/-- Effect of `rm -rf path`: the directory itself and everything whose
path lies strictly below it disappear. -/
def fsRmrf (fs : FS) (path : String) : FS :=
  { dirs := fs.dirs.filter (fun d => !((d == path) || pathHasPre (path ++ "/") d)),
    files := fs.files.filter (fun f => !((f.1 == path) || pathHasPre (path ++ "/") f.1)) }

/-- Contents of a regular file, when present. -/
def fsRead (fs : FS) (path : String) : Option FileData :=
  (fs.files.find? (fun f => f.1 == path)).map (fun f => f.2)

/-- The shell command built by `copy_file` in v4m.c. -/
def cp_command (src dest : String) : String :=
  "cp \"" ++ src ++ "\" \"" ++ dest ++ "\""

/-- `copy_file` from v4m.c: `system("cp ...")`; succeeds exactly when the
source file exists, duplicating its contents at the destination. -/
def copy_file (fs : FS) (src dest : String) : Nat × FS × List Event :=
  match fsRead fs src with
  | some data => (0, fsWrite fs dest data, [Event.cmd (cp_command src dest)])
  | none => (1, fs, [Event.cmd (cp_command src dest)])

/-- `get_distro_url` from v4m.c: the fixed distro catalog. -/
def get_distro_url (distro : String) : Option String :=
  if distro = "debian12" then
    some "https://cloud.debian.org/images/cloud/bookworm/latest/debian-12-generic-arm64.qcow2"
  else if distro = "ubuntu22" then
    some "https://cloud-images.ubuntu.com/releases/22.04/release/ubuntu-22.04-server-cloudimg-arm64.img"
  else if distro = "ubuntu24" then
    some "https://cloud-images.ubuntu.com/releases/24.04/release/ubuntu-24.04-server-cloudimg-arm64.img"
  else none

/-- The basename computation in `ensure_distro`: text after the last
slash, or the whole string when it has no slash (strrchr). -/
def url_basename (url : String) : String :=
  String.mk ((url.data.reverse.takeWhile (fun c => c != '/')).reverse)

/-- Cache path `<home>/.v4m/distros/<distro>/<basename-of-url>`. -/
def distro_cache_path (home distro url : String) : String :=
  home ++ "/.v4m/distros/" ++ distro ++ "/" ++ url_basename url

/-- The curl invocation built by `ensure_distro`. -/
def curl_command (distro_path url : String) : String :=
  "curl -L -o \"" ++ distro_path ++ "\" \"" ++ url ++ "\" --progress-bar"

/-- `ensure_distro` from v4m.c: resolve the catalog URL, return the cache
path immediately when the cached file exists, otherwise create the distro
directory and download; on download failure remove the partial file and
fail.  Returns the resolved path (`none` on failure), the new filesystem
and the event trace. -/
def ensure_distro (home distro : String) (env : Env) (fs : FS) :
    Option String × FS × List Event :=
  match get_distro_url distro with
  | none => (none, fs, [Event.logError "Unknown distro"])
  | some url =>
    let distro_dir := home ++ "/.v4m/distros/" ++ distro
    let distro_path := distro_dir ++ "/" ++ url_basename url
    if file_exists fs distro_path then
      (some distro_path, fs, [])
    else
      let fs1 := fsMkdir fs distro_dir
      if env.curlOk then
        (some distro_path, fsWrite fs1 distro_path (FileData.downloaded url),
          [Event.logInfo "Downloading distro...",
           Event.cmd (curl_command distro_path url),
           Event.logSuccess "Downloaded distro"])
      else
        (none, fsRemove fs1 distro_path,
          [Event.logInfo "Downloading distro...",
           Event.cmd (curl_command distro_path url),
           Event.logError "Failed to download distro"])

/-- The adjective word list of `generate_vm_name`. -/
def adjectives : List String :=
  ["fast", "quick", "smart", "bright", "cool",
   "swift", "agile", "sharp", "clever", "rapid"]

/-- The noun word list of `generate_vm_name`. -/
def nouns : List String :=
  ["vm", "box", "node", "server", "instance",
   "machine", "host", "system", "unit", "engine"]

/-- `generate_vm_name` from v4m.c.  The three successive `rand()` results
are the parameters `r1 r2 r3`; the C code reduces them modulo 10, 10 and
100 and formats `"%s-%s-%d"`. -/
def generate_vm_name (r1 r2 r3 : Nat) : String :=
  adjectives.getD (r1 % 10) "" ++ "-" ++ nouns.getD (r2 % 10) "" ++ "-" ++
    toString (r3 % 100)

/-- Modelled collaborator: the C library pseudo-random generator, as the
deterministic linear congruential sample implementation of the ISO C
standard.  `rand` is a pure step function of the hidden state. -/
def rand_step (state : Nat) : Nat × Nat :=
  let next := (state * 1103515245 + 12345) % (2 ^ 31)
  (next / 65536 % 32768, next)

/-- Modelled collaborator: `srand` replaces the hidden generator state
with the seed, discarding whatever state was there before. -/
def srand (seed _oldState : Nat) : Nat := seed

/-- The character set of the non-secure password fallback in
`generate_password`. -/
def password_chars : List Char :=
  "ABCDEFGHIJKLMNOPQRSTUVWXYZabcdefghijklmnopqrstuvwxyz0123456789".data

/-- The character-picking loop of the fallback branch of
`generate_password`: `count` remaining iterations, current generator
state, accumulated characters (reversed). -/
def password_loop : Nat → Nat → List Char → List Char × Nat
  | 0, st, acc => (acc.reverse, st)
  | n + 1, st, acc =>
    let r := rand_step st
    password_loop n r.2 (password_chars.getD (r.1 % 62) 'A' :: acc)

/-- The fallback branch of `generate_password` (openssl unavailable):
seed the generator from the wall-clock value, then pick 12 characters
`chars[rand() % 62]`.  `state0` is the hidden generator state before the
call. -/
def generate_password_fallback (seed state0 : Nat) : String :=
  String.mk (password_loop 12 (srand seed state0) []).1

/-- `generate_password` from v4m.c.  `popenRes` is the openssl pipeline
outcome: `none` models popen failure (fallback branch);
`some none` models fgets reading nothing (buffer left as it was);
`some (some raw)` is the line read (at most 255 characters kept, then
newline-stripped). -/
def generate_password (popenRes : Option (Option String)) (seed state0 : Nat)
    (current : String) : String :=
  match popenRes with
  | some (some raw) => stripNewline (strncpy255 raw)
  | some none => current
  | none => generate_password_fallback seed state0

/-- One lowercase hexadecimal digit. -/
def hexDigit (n : Nat) : Char :=
  if n < 10 then Char.ofNat (48 + n) else Char.ofNat (87 + n)

/-- `%02x` formatting of a byte. -/
def hex2 (n : Nat) : String :=
  String.mk [hexDigit (n % 256 / 16), hexDigit (n % 16)]

/-- `generate_mac` from v4m.c: `52:54:00:%02x:%02x:%02x` of three `rand`
results reduced modulo 256. -/
def generate_mac (r1 r2 r3 : Nat) : String :=
  "52:54:00:" ++ hex2 (r1 % 256) ++ ":" ++ hex2 (r2 % 256) ++ ":" ++ hex2 (r3 % 256)

/-- The openssl invocation built by `hash_password`. -/
def hash_command (password : String) : String :=
  "openssl passwd -6 \"" ++ password ++ "\""

/-- `hash_password` from v4m.c: run `openssl passwd -6`, read one line,
strip the newline.  `env.hashOut` is the raw line read (`none` for
popen/fgets failure).  Returns the hash (or `none`) and the trace. -/
def hash_password (password : String) (env : Env) : Option String × List Event :=
  match env.hashOut with
  | none => (none, [Event.cmd (hash_command password)])
  | some raw => (some (stripNewline raw), [Event.cmd (hash_command password)])

/-- The exact sequence of strings printed into `user-data` by
`create_cloud_init` (one list entry per fprintf call). -/
def userDataChunks (vm_name username hashed_pass : String) : List String :=
  ["#cloud-config\n\n",
   "# System settings\n",
   "hostname: " ++ vm_name ++ "\n",
   "fqdn: " ++ vm_name ++ ".local\n",
   "timezone: Europe/Rome\n\n",
   "# Enable SSH password authentication\n",
   "ssh_pwauth: true\n",
   "disable_root: false\n\n",
   "# Network configuration for DHCP\n",
   "network:\n",
   "  version: 2\n",
   "  ethernets:\n",
   "    enp0s1:\n",
   "      dhcp4: true\n",
   "      dhcp6: true\n\n",
   "# Users\n",
   "users:\n",
   "  - name: " ++ username ++ "\n",
   "    sudo: ALL=(ALL) NOPASSWD:ALL\n",
   "    groups: [sudo, users]\n",
   "    shell: /bin/bash\n",
   "    lock_passwd: false\n",
   "    passwd: " ++ hashed_pass ++ "\n",
   "  - name: root\n",
   "    lock_passwd: false\n",
   "    passwd: " ++ hashed_pass ++ "\n\n",
   "# Packages to install\n",
   "packages:\n",
   "  - openssh-server\n",
   "  - sudo\n",
   "  - curl\n",
   "  - wget\n",
   "  - vim\n",
   "  - net-tools\n",
   "  - htop\n",
   "  - avahi-daemon\n",
   "  - avahi-utils\n\n",
   "# Commands to run after boot\n",
   "runcmd:\n",
   "  - systemctl enable ssh\n",
   "  - systemctl start ssh\n",
   "  - systemctl enable avahi-daemon\n",
   "  - systemctl start avahi-daemon\n",
   "  - echo \"VM is ready!\" > /tmp/vm-ready\n\n",
   "# Final message\n",
   "final_message: \"VM " ++ vm_name ++ " is ready! SSH available on port 22.\"\n"]

/-- Full text of the generated `user-data` document. -/
def userDataContent (vm_name username hashed_pass : String) : String :=
  String.join (userDataChunks vm_name username hashed_pass)

/-- Full text of the generated `meta-data` document
(`instance-id` carries the creation time). -/
def metaDataContent (vm_name : String) (tNow : Nat) : String :=
  "instance-id: " ++ vm_name ++ "-" ++ toString tNow ++ "\n" ++
  "local-hostname: " ++ vm_name ++ "\n"

/-- `create_cloud_init` from v4m.c: hash the password (hard gate), write
`user-data`, write `meta-data`; each fopen can fail (hard gates). -/
def create_cloud_init (vm_name username password vm_dir : String) (env : Env)
    (fs : FS) : Nat × FS × List Event :=
  match hash_password password env with
  | (none, ev) => (1, fs, ev ++ [Event.logError "Failed to hash password"])
  | (some hashed, ev) =>
    if env.userDataOpenOk then
      let fs := fsWrite fs (vm_dir ++ "/user-data")
        (FileData.text (userDataContent vm_name username hashed))
      if env.metaDataOpenOk then
        let fs := fsWrite fs (vm_dir ++ "/meta-data")
          (FileData.text (metaDataContent vm_name env.tNow))
        (0, fs, ev)
      else
        (1, fs, ev ++ [Event.logError "Failed to create meta-data file"])
    else
      (1, fs, ev ++ [Event.logError "Failed to create user-data file"])

/-- Text of the `vm-info.json` metadata record written by `create_vm`. -/
def vmInfoContent (vm_name distro username password vm_mac created : String) :
    String :=
  "\x7b\n" ++
  "    \"name\": \"" ++ vm_name ++ "\",\n" ++
  "    \"distro\": \"" ++ distro ++ "\",\n" ++
  "    \"username\": \"" ++ username ++ "\",\n" ++
  "    \"password\": \"" ++ password ++ "\",\n" ++
  "    \"mac\": \"" ++ vm_mac ++ "\",\n" ++
  "    \"memory\": \"" ++ DEFAULT_MEMORY ++ "\",\n" ++
  "    \"cpus\": \"" ++ DEFAULT_CPUS ++ "\",\n" ++
  "    \"disk_size\": \"" ++ DEFAULT_DISK_SIZE ++ "\",\n" ++
  "    \"created\": \"" ++ created ++ "\"\n" ++
  "\x7d\n"

/-- The qemu invocation assembled by `start_vm` (exact snprintf text). -/
def qemu_command (efi_vars vm_disk cloud_init_iso bridge vm_mac monitor_socket
    vm_dir log_file : String) : String :=
  "nohup qemu-system-aarch64 " ++
  "-machine virt " ++
  "-cpu host " ++
  "-accel hvf " ++
  "-smp " ++ DEFAULT_CPUS ++ " " ++
  "-m " ++ DEFAULT_MEMORY ++ " " ++
  "-drive if=pflash,format=raw,file=/opt/homebrew/share/qemu/edk2-aarch64-code.fd,readonly=on " ++
  "-drive if=pflash,format=raw,file=\"" ++ efi_vars ++ "\" " ++
  "-drive file=\"" ++ vm_disk ++ "\",format=qcow2,if=virtio " ++
  "-drive file=\"" ++ cloud_init_iso ++ "\",media=cdrom,if=virtio,readonly=on " ++
  "-netdev vmnet-bridged,id=net0,ifname=" ++ bridge ++ " " ++
  "-device virtio-net,netdev=net0,mac=" ++ vm_mac ++ " " ++
  "-global PIIX4_PM.disable_s3=1 " ++
  "-monitor unix:\"" ++ monitor_socket ++ "\",server,nowait " ++
  "-serial unix:\"" ++ vm_dir ++ "/console.sock\",server,nowait " ++
  "-device virtio-serial " ++
  "-chardev socket,path=\"" ++ vm_dir ++ "/qga.sock\",server=on,wait=off,id=qga0 " ++
  "-device virtserialport,chardev=qga0,name=org.qemu.guest_agent.0 " ++
  "-nographic > \"" ++ log_file ++ "\" 2>&1 &"

/-- `start_vm` from v4m.c: resolve the bridge interface (the simplified
`get_default_interface` always yields "en0"), truncate the console log,
remove a stale monitor socket, run the detached qemu command, write the
pid file (`echo $!` in a fresh shell writes an empty line), report
success, sleep through the boot grace period.  `show_vm_info` only reads
and prints, so it contributes nothing tracked here. -/
def start_vm (vm_name vm_mac vm_dir : String) (env : Env) (fs : FS) :
    Nat × FS × List Event :=
  let vm_disk := vm_dir ++ "/disk.qcow2"
  let cloud_init_iso := vm_dir ++ "/cloud-init.iso"
  let efi_vars := vm_dir ++ "/efi-vars.fd"
  let log_file := vm_dir ++ "/console.log"
  let monitor_socket := vm_dir ++ "/monitor.sock"
  let pid_file := vm_dir ++ "/vm.pid"
  let bridge := "en0"
  let ev0 := [Event.logInfo "Starting VM..."]
  let fs := fsWrite fs log_file (FileData.text "")
  let fs := fsRemove fs monitor_socket
  let qcmd := qemu_command efi_vars vm_disk cloud_init_iso bridge vm_mac
    monitor_socket vm_dir log_file
  if env.qemuOk then
    let fs := fsWrite fs pid_file (FileData.text "\n")
    (0, fs, ev0 ++
      [Event.cmd qcmd,
       Event.cmd ("echo $! > \"" ++ pid_file ++ "\""),
       Event.logSuccess "VM started",
       Event.logInfo "Waiting for VM to boot...",
       Event.sleep 60])
  else
    (1, fs, ev0 ++ [Event.cmd qcmd, Event.logError "Failed to start QEMU"])

/-- The VM directory path `<home>/.v4m/vms/<name>`. -/
def vm_dir_path (home vm_name : String) : String :=
  home ++ "/.v4m/vms/" ++ vm_name

/-- The scratch directory `/tmp/cloud-init-<pid>` used for ISO packaging. -/
def temp_dir_path (pid : Nat) : String :=
  "/tmp/cloud-init-" ++ toString pid

/-- `create_vm` from v4m.c, the whole provisioning pipeline: existence
check, VM directory creation, image-cache resolution, disk copy and
resize, MAC generation, firmware-variable allocation (exit status
ignored), cloud-init generation, ISO packaging (with `rm -rf` of the
scratch and VM directories on failure), metadata record write (skipped
silently when fopen fails), then launch. -/
def create_vm (home vm_name distro username password : String) (env : Env)
    (fs : FS) : Nat × FS × List Event :=
  let vm_dir := vm_dir_path home vm_name
  let vm_disk := vm_dir ++ "/disk.qcow2"
  let ev0 := [Event.logInfo "Creating VM..."]
  if dir_exists fs vm_dir then
    (1, fs, ev0 ++ [Event.logError "VM already exists"])
  else
    let fs := fsMkdir fs vm_dir
    match ensure_distro home distro env fs with
    | (none, fs, ev1) => (1, fs, ev0 ++ ev1)
    | (some distro_path, fs, ev1) =>
      let ev2 := ev0 ++ ev1 ++ [Event.logInfo "Setting up VM disk..."]
      match copy_file fs distro_path vm_disk with
      | (cpExit, fs, evCp) =>
        if cpExit != 0 then
          (1, fs, ev2 ++ evCp ++ [Event.logError "Failed to copy disk image"])
        else
          let resize_cmd := "qemu-img resize \"" ++ vm_disk ++ "\" " ++
            DEFAULT_DISK_SIZE ++ " >/dev/null"
          if env.resizeOk then
            let vm_mac := generate_mac env.macR1 env.macR2 env.macR3
            let efi_vars := vm_dir ++ "/efi-vars.fd"
            let efi_cmd := "dd if=/dev/zero of=\"" ++ efi_vars ++
              "\" bs=1M count=64 >/dev/null 2>&1"
            let fs := if env.ddOk then
              fsWrite fs efi_vars (FileData.zeros 67108864) else fs
            let ev3 := ev2 ++ evCp ++ [Event.cmd resize_cmd, Event.cmd efi_cmd,
              Event.logInfo "Configuring cloud-init..."]
            match create_cloud_init vm_name username password vm_dir env fs with
            | (ciExit, fs, evCI) =>
              if ciExit != 0 then
                (1, fs, ev3 ++ evCI)
              else
                let cloud_init_iso := vm_dir ++ "/cloud-init.iso"
                let temp_dir := temp_dir_path env.pid
                let fs := fsMkdir fs temp_dir
                match copy_file fs (vm_dir ++ "/user-data")
                    (temp_dir ++ "/user-data") with
                | (_, fs, evC1) =>
                  match copy_file fs (vm_dir ++ "/meta-data")
                      (temp_dir ++ "/meta-data") with
                  | (_, fs, evC2) =>
                    let iso_cmd := "hdiutil makehybrid -iso -joliet " ++
                      "-default-volume-name \"cidata\" -o \"" ++ cloud_init_iso ++
                      "\" \"" ++ temp_dir ++ "\" >/dev/null 2>&1"
                    let ev4 := ev3 ++ evCI ++ evC1 ++ evC2 ++ [Event.cmd iso_cmd]
                    if env.isoOk then
                      let fs := fsWrite fs cloud_init_iso
                        (FileData.isoImage temp_dir)
                      let fs := fsRmrf fs temp_dir
                      let fs := if env.vmInfoOpenOk then
                        fsWrite fs (vm_dir ++ "/vm-info.json")
                          (FileData.text (vmInfoContent vm_name distro username
                            password vm_mac env.created))
                        else fs
                      let ev5 := ev4 ++
                        [Event.cmd ("rm -rf \"" ++ temp_dir ++ "\""),
                         Event.logSuccess "VM created successfully"]
                      match start_vm vm_name vm_mac vm_dir env fs with
                      | (sExit, fs, evS) => (sExit, fs, ev5 ++ evS)
                    else
                      let fs := fsRmrf (fsRmrf fs temp_dir) vm_dir
                      (1, fs, ev4 ++
                        [Event.logError "Failed to create cloud-init ISO",
                         Event.cmd ("rm -rf \"" ++ temp_dir ++ "\" \"" ++
                           vm_dir ++ "\"")])
          else
            (1, fs, ev2 ++ evCp ++ [Event.cmd resize_cmd,
              Event.logError "Failed to resize disk"])

/-- Result of the argument loop in `main`: the four collected values, or
an early exit (usage for `--help`/`-h`, error for anything else). -/
inductive ParsedArgs where
  | ok (vmName distroName userName pass : String)
  | helpExit
  | errExit
deriving DecidableEq, Repr

/-- The argument loop of `main`.  A value-taking flag consumes the next
argument when one exists (`strncpy` keeps at most 255 characters); a
value-taking flag in last position falls through to the unknown-option
error, exactly as the `i + 1 < argc` guard does in C. -/
def parse_args : List String → String → String → String → String → ParsedArgs
  | [], n, d, u, p => ParsedArgs.ok n d u p
  | "--name" :: v :: rest, _, d, u, p => parse_args rest (strncpy255 v) d u p
  | "--distro" :: v :: rest, n, _, u, p => parse_args rest n (strncpy255 v) u p
  | "--user" :: v :: rest, n, d, _, p => parse_args rest n d (strncpy255 v) p
  | "--pass" :: v :: rest, n, d, u, _ => parse_args rest n d u (strncpy255 v)
  | "--help" :: _, _, _, _, _ => ParsedArgs.helpExit
  | "-h" :: _, _, _, _, _ => ParsedArgs.helpExit
  | _ :: _, _, _, _, _ => ParsedArgs.errExit

/-- The argument handling of `main` end to end: run the loop from the
initial values (empty name, default distro, default user, empty
password), then generate a name when the collected name is empty and a
password when the collected password is empty, exactly as the two
`strlen(...) == 0` checks do.  `r1 r2 r3` are the `rand` results consumed
by `generate_vm_name`; `popenRes`, `seed` and `state0` feed
`generate_password`. -/
def main_args (args : List String) (r1 r2 r3 : Nat)
    (popenRes : Option (Option String)) (seed state0 : Nat) :
    Option (String × String × String × String) :=
  match parse_args args "" DEFAULT_DISTRO DEFAULT_USER "" with
  | ParsedArgs.ok n d u p =>
    let n := if n.length = 0 then generate_vm_name r1 r2 r3 else n
    let p := if p.length = 0 then generate_password popenRes seed state0 p else p
    some (n, d, u, p)
  | _ => none

/-! Concrete instances used for counterexamples and witnesses. -/

/-- The catalogued debian12 image URL. -/
def debianUrl : String :=
  "https://cloud.debian.org/images/cloud/bookworm/latest/debian-12-generic-arm64.qcow2"

/-- The cache path of the debian12 image for home directory "/h". -/
def debianCachePath : String :=
  "/h/.v4m/distros/debian12/debian-12-generic-arm64.qcow2"

/-- Concrete starting filesystem: the three base directories plus an
already-cached debian12 image. -/
def fsCached : FS :=
  ⟨["/h/.v4m", "/h/.v4m/distros", "/h/.v4m/vms"],
   [(debianCachePath, FileData.downloaded debianUrl)]⟩

/-- Concrete filesystem in which the VM directory for name "demo" already
exists (with one file inside it). -/
def fsColl : FS :=
  ⟨["/h/.v4m/vms/demo", "/h/.v4m", "/h/.v4m/distros", "/h/.v4m/vms"],
   [("/h/.v4m/vms/demo/disk.qcow2", FileData.zeros 7)]⟩

/-- Environment in which every external collaborator succeeds. -/
def envAllOk : Env :=
  ⟨1, 100, "2026-01-01T00:00:00Z", 0, 0, 0, true, true, true,
   some "HASH\n", true, true, true, true, true⟩

/-- Environment in which only the ISO packaging subprocess fails. -/
def envIsoFail : Env := { envAllOk with isoOk := false }

/-- Environment in which only the firmware-variable `dd` fails. -/
def envDdFail : Env := { envAllOk with ddOk := false }

/-- Environment in which only the password-hashing subprocess fails. -/
def envHashFail : Env := { envAllOk with hashOut := none }

/-- Environment in which only the qemu launch fails. -/
def envQemuFail : Env := { envAllOk with qemuOk := false }

/-- Environment in which only opening `vm-info.json` for writing fails. -/
def envVmInfoFail : Env := { envAllOk with vmInfoOpenOk := false }

/-- Checker written after the words of claim C7: the string is an
adjective from the ten-item list, a noun from the ten-item list, and a
two-digit number (10..99), joined with hyphens. -/
def isAdjNounTwoDigit (s : String) : Bool :=
  adjectives.any (fun a => nouns.any (fun n =>
    (List.range 100).any (fun k =>
      decide (10 ≤ k) && (s == a ++ "-" ++ n ++ "-" ++ toString k))))

/-- Is the event a classified error message? -/
def isErrorEvent : Event → Bool
  | Event.logError _ => true
  | _ => false

/-- Is the event a classified warning message? -/
def isWarnEvent : Event → Bool
  | Event.logWarning _ => true
  | _ => false

/-! ## Theorems -/

/-- Filtering first does not change `any` when the filter keeps every
element the scan is looking for. -/
theorem any_filter_keep {α : Type} (l : List α) (pr g : α → Bool)
    (h : ∀ a, g a = true → pr a = true) :
    (l.filter pr).any g = l.any g := by
  induction l with
  | nil => rfl
  | cons a t ih =>
    cases hpr : pr a with
    | false =>
      have hg : g a = false := by
        cases hga : g a with
        | false => rfl
        | true => rw [h a hga] at hpr; exact absurd hpr (by simp)
      simp [List.filter_cons, hpr, List.any_cons, hg, ih]
    | true => simp [List.filter_cons, hpr, List.any_cons, ih]

/-- Filtering first makes `any` false when the filter drops every element
the scan is looking for. -/
theorem any_filter_drop {α : Type} (l : List α) (pr g : α → Bool)
    (h : ∀ a, g a = true → pr a = false) :
    (l.filter pr).any g = false := by
  induction l with
  | nil => rfl
  | cons a t ih =>
    cases hpr : pr a with
    | false => simp [List.filter_cons, hpr, ih]
    | true =>
      have hg : g a = false := by
        cases hga : g a with
        | false => rfl
        | true => rw [h a hga] at hpr; exact absurd hpr (by simp)
      simp [List.filter_cons, hpr, List.any_cons, hg, ih]

/-- `fsMkdir` touches no files. -/
theorem file_exists_fsMkdir (fs : FS) (p q : String) :
    file_exists (fsMkdir fs p) q = file_exists fs q := rfl

/-- `fsWrite` touches no directories. -/
theorem dir_exists_fsWrite (fs : FS) (p q : String) (d : FileData) :
    dir_exists (fsWrite fs p d) q = dir_exists fs q := rfl

/-- `fsRemove` touches no directories. -/
theorem dir_exists_fsRemove (fs : FS) (p q : String) :
    dir_exists (fsRemove fs p) q = dir_exists fs q := rfl

/-- Directory existence after `fsMkdir`. -/
theorem dir_exists_fsMkdir (fs : FS) (p q : String) :
    dir_exists (fsMkdir fs p) q = ((p == q) || dir_exists fs q) := rfl

/-- File existence after `fsWrite`. -/
theorem file_exists_fsWrite (fs : FS) (p q : String) (d : FileData) :
    file_exists (fsWrite fs p d) q = ((p == q) || file_exists fs q) := by
  unfold file_exists fsWrite
  show ((p == q) || _) = _
  by_cases hqp : q = p
  · subst hqp; simp
  · have hkeep : ∀ f : String × FileData, (f.1 == q) = true →
        (!(f.1 == p)) = true := by
      intro f hf
      have : f.1 = q := by simpa using hf
      simp [this, hqp]
    rw [any_filter_keep fs.files _ _ hkeep]

/-- File existence after `fsRemove`. -/
theorem file_exists_fsRemove (fs : FS) (p q : String) :
    file_exists (fsRemove fs p) q = (!(q == p) && file_exists fs q) := by
  unfold file_exists fsRemove
  by_cases hqp : q = p
  · subst hqp
    have hdrop : ∀ f : String × FileData, (f.1 == q) = true →
        (!(f.1 == q)) = false := by
      intro f hf; simp [show f.1 = q by simpa using hf]
    rw [any_filter_drop fs.files _ _ hdrop]; simp
  · have hkeep : ∀ f : String × FileData, (f.1 == q) = true →
        (!(f.1 == p)) = true := by
      intro f hf; simp [show f.1 = q by simpa using hf, hqp]
    rw [any_filter_keep fs.files _ _ hkeep]
    simp [hqp]

/-- File existence after `rm -rf`. -/
theorem file_exists_fsRmrf (fs : FS) (p q : String) :
    file_exists (fsRmrf fs p) q =
      (!((q == p) || pathHasPre (p ++ "/") q) && file_exists fs q) := by
  unfold file_exists fsRmrf
  by_cases hcond : ((q == p) || pathHasPre (p ++ "/") q) = true
  · have hdrop : ∀ f : String × FileData, (f.1 == q) = true →
        (!((f.1 == p) || pathHasPre (p ++ "/") f.1)) = false := by
      intro f hf
      have hq : f.1 = q := by simpa using hf
      simp [hq, hcond]
    rw [any_filter_drop fs.files _ _ hdrop]; simp [hcond]
  · have hkeep : ∀ f : String × FileData, (f.1 == q) = true →
        (!((f.1 == p) || pathHasPre (p ++ "/") f.1)) = true := by
      intro f hf
      have hq : f.1 = q := by simpa using hf
      simp only [hq]
      simp only [Bool.not_eq_true] at hcond ⊢
      simp [hcond]
    rw [any_filter_keep fs.files _ _ hkeep]
    simp [Bool.not_eq_true] at hcond
    simp [hcond]

/-- Directory existence after `rm -rf`. -/
theorem dir_exists_fsRmrf (fs : FS) (p q : String) :
    dir_exists (fsRmrf fs p) q =
      (!((q == p) || pathHasPre (p ++ "/") q) && dir_exists fs q) := by
  unfold dir_exists fsRmrf
  by_cases hcond : ((q == p) || pathHasPre (p ++ "/") q) = true
  · have hdrop : ∀ d : String, (d == q) = true →
        (!((d == p) || pathHasPre (p ++ "/") d)) = false := by
      intro d hd
      have hq : d = q := by simpa using hd
      simp [hq, hcond]
    rw [any_filter_drop fs.dirs _ _ hdrop]; simp [hcond]
  · have hkeep : ∀ d : String, (d == q) = true →
        (!((d == p) || pathHasPre (p ++ "/") d)) = true := by
      intro d hd
      have hq : d = q := by simpa using hd
      simp only [hq]
      simp only [Bool.not_eq_true] at hcond ⊢
      simp [hcond]
    rw [any_filter_keep fs.dirs _ _ hkeep]
    simp [Bool.not_eq_true] at hcond
    simp [hcond]

/-- Reading the file just written. -/
theorem fsRead_fsWrite_self (fs : FS) (p : String) (d : FileData) :
    fsRead (fsWrite fs p d) p = some d := by
  simp [fsRead, fsWrite, List.find?]

/-- `fsMkdir` does not change reads. -/
theorem fsRead_fsMkdir (fs : FS) (p q : String) :
    fsRead (fsMkdir fs p) q = fsRead fs q := rfl

/-- A successful read implies file existence. -/
theorem file_exists_of_fsRead (fs : FS) (p : String) (d : FileData)
    (h : fsRead fs p = some d) : file_exists fs p = true := by
  unfold fsRead at h
  unfold file_exists
  cases hf : fs.files.find? (fun f => f.1 == p) with
  | none => rw [hf] at h; exact absurd h (by simp)
  | some f =>
    have := List.find?_some hf
    have hmem := List.mem_of_find?_eq_some hf
    exact List.any_eq_true.mpr ⟨f, hmem, this⟩

/-- `find?` is unchanged by a filter that keeps everything it could
return. -/
theorem find?_filter_keep {α : Type} (l : List α) (pr g : α → Bool)
    (h : ∀ a, g a = true → pr a = true) :
    (l.filter pr).find? g = l.find? g := by
  induction l with
  | nil => rfl
  | cons a t ih =>
    cases hg : g a with
    | false =>
      cases hpr : pr a with
      | false => simp [List.filter_cons, hpr, List.find?_cons, hg, ih]
      | true => simp [List.filter_cons, hpr, List.find?_cons, hg, ih]
    | true =>
      have hpr := h a hg
      simp [List.filter_cons, hpr, List.find?_cons, hg]

/-- Reading a path different from the one just written. -/
theorem fsRead_fsWrite_ne (fs : FS) (p q : String) (d : FileData)
    (h : ¬ p = q) : fsRead (fsWrite fs p d) q = fsRead fs q := by
  unfold fsRead fsWrite
  have hhead : ((p, d).1 == q) = false := by simp [h]
  rw [List.find?_cons_of_neg _ (by simp [hhead])]
  rw [find?_filter_keep]
  intro f hf
  have hq : f.1 = q := by simpa using hf
  have h2 : ¬ q = p := fun hc => h hc.symm
  simp [hq, h2]

/-- Appending the same string on the left is injective. -/
theorem string_append_left_inj (a : String) {s t : String}
    (h : a ++ s = a ++ t) : s = t := by
  have h2 := congrArg String.data h
  rw [String.data_append, String.data_append] at h2
  exact String.ext (List.append_cancel_left h2)

/-- Distinct suffixes after a common prefix give distinct strings. -/
theorem string_append_ne (a : String) {s t : String} (h : s ≠ t) :
    (a ++ s == a ++ t) = false := by
  simp only [beq_eq_false_iff_ne, ne_eq]
  intro hc
  exact h (string_append_left_inj a hc)

/-- Every string is a leading substring of its own extensions. -/
theorem pathHasPre_append (p q : String) : pathHasPre p (p ++ q) = true := by
  unfold pathHasPre
  rw [String.data_append, List.isPrefixOf_iff_prefix]
  exact List.prefix_append p.data q.data

/-- Strings with equal-length but different suffixes differ, whatever
stands before the suffixes. -/
theorem append_ne_cross (a b : String) {s t : String}
    (hlen : s.data.length = t.data.length) (hne : ¬ s = t) :
    ¬ (a ++ s = b ++ t) := by
  intro h
  have h2 := congrArg String.data h
  rw [String.data_append, String.data_append] at h2
  exact hne (String.ext (List.append_inj' h2 hlen).2)

/-- Different suffixes after the same prefix give different strings. -/
theorem append_ne_of_suffix_ne (a : String) {s t : String} (hne : ¬ s = t) :
    ¬ (a ++ s = a ++ t) :=
  fun h => hne (string_append_left_inj a h)

/-- Two appended strings differ when the last `k` characters of their
(right) parts differ, whatever stands on the left. -/
theorem append_ne_rev_take (a b s t : String) (k : Nat)
    (hs : k ≤ s.data.length) (ht : k ≤ t.data.length)
    (hne : ¬ s.data.reverse.take k = t.data.reverse.take k) :
    ¬ (a ++ s = b ++ t) := by
  intro h
  have h2 := congrArg (fun x => x.data.reverse.take k) h
  simp only [String.data_append, List.reverse_append] at h2
  rw [List.take_append_of_le_length (by simpa using hs),
      List.take_append_of_le_length (by simpa using ht)] at h2
  exact hne h2

/-- A leading-substring test is insensitive to a common root. -/
theorem pathHasPre_same_root (a s t : String) :
    pathHasPre (a ++ s) (a ++ t) = pathHasPre s t := by
  unfold pathHasPre
  rw [String.data_append, String.data_append]
  by_cases h : s.data.isPrefixOf t.data = true
  · rw [h]
    rw [ List.isPrefixOf_iff_prefix] at h ⊢
    exact (List.prefix_append_right_inj a.data).mpr h
  · have h2 : s.data.isPrefixOf t.data = false := Bool.eq_false_iff.mpr h
    rw [h2]
    by_cases h3 : (a.data ++ s.data).isPrefixOf (a.data ++ t.data) = true
    · rw [ List.isPrefixOf_iff_prefix, List.prefix_append_right_inj,
          ← List.isPrefixOf_iff_prefix] at h3
      rw [h3] at h2
      cases h2
    · exact Bool.eq_false_iff.mpr h3

/-- C4: for every catalogued distro, if the cached image file already
exists at `<root>/distros/<distroId>/<basename-of-url>`, `ensure_distro`
returns that path immediately, leaving the filesystem untouched and
producing no events (so no download invocation); and after any successful
call, a second call for the same distro is such a cache hit, so the
download runs at most once. -/
theorem ensure_distro_cache_at_most_once (home distro url : String)
    (env env2 : Env) (fs : FS) (hurl : get_distro_url distro = some url) :
    (file_exists fs (distro_cache_path home distro url) = true →
      ensure_distro home distro env fs =
        (some (distro_cache_path home distro url), fs, [])) ∧
    (∀ p fs1 ev, ensure_distro home distro env fs = (some p, fs1, ev) →
      ensure_distro home distro env2 fs1 = (some p, fs1, [])) := by
  constructor
  · intro h
    simp only [distro_cache_path] at h
    simp [ensure_distro, hurl, h, distro_cache_path]
  · intro p fs1 ev hcall
    simp only [ensure_distro, hurl] at hcall ⊢
    by_cases hfe :
        file_exists fs (home ++ "/.v4m/distros/" ++ distro ++ "/" ++ url_basename url) = true
    · simp only [hfe, if_true, Prod.mk.injEq, Option.some.injEq] at hcall
      obtain ⟨hp, hfs, hev⟩ := hcall
      subst hp; subst hfs
      simp [hfe]
    · simp only [Bool.not_eq_true] at hfe
      simp only [hfe, Bool.false_eq_true, if_false] at hcall
      cases hcurl : env.curlOk with
      | false =>
        simp only [hcurl, Bool.false_eq_true, if_false, Prod.mk.injEq] at hcall
        exact absurd hcall.1 (by simp)
      | true =>
        simp only [hcurl, if_true, Prod.mk.injEq, Option.some.injEq] at hcall
        obtain ⟨hp, hfs, hev⟩ := hcall
        subst hp; subst hfs
        simp [file_exists_fsWrite]

/-- Witness for C4 at a concrete cached filesystem. -/
theorem ensure_distro_cache_at_most_once_witness :
    get_distro_url "debian12" = some debianUrl ∧
    ((file_exists fsCached (distro_cache_path "/h" "debian12" debianUrl) = true →
       ensure_distro "/h" "debian12" envAllOk fsCached =
         (some (distro_cache_path "/h" "debian12" debianUrl), fsCached, [])) ∧
     (∀ p fs1 ev,
       ensure_distro "/h" "debian12" envAllOk fsCached = (some p, fs1, ev) →
       ensure_distro "/h" "debian12" envAllOk fs1 = (some p, fs1, []))) :=
  ⟨by decide,
   ensure_distro_cache_at_most_once "/h" "debian12" debianUrl envAllOk envAllOk
     fsCached (by decide)⟩

/-- C5: provisioning a VM whose directory already exists fails
immediately ("VM already exists") and returns the filesystem completely
unchanged: nothing inside (or outside) the existing directory is written,
created or deleted. -/
theorem create_vm_name_collision (home vm_name distro username password : String)
    (env : Env) (fs : FS)
    (h : dir_exists fs (vm_dir_path home vm_name) = true) :
    create_vm home vm_name distro username password env fs =
      (1, fs, [Event.logInfo "Creating VM...",
               Event.logError "VM already exists"]) := by
  simp [create_vm, h]

/-- Witness for C5 at a concrete filesystem containing the directory. -/
theorem create_vm_name_collision_witness :
    dir_exists fsColl (vm_dir_path "/h" "demo") = true ∧
    create_vm "/h" "demo" "debian12" "alice" "secret123" envAllOk fsColl =
      (1, fsColl, [Event.logInfo "Creating VM...",
                   Event.logError "VM already exists"]) :=
  ⟨by decide,
   create_vm_name_collision "/h" "demo" "debian12" "alice" "secret123" envAllOk
     fsColl (by decide)⟩

/-- C1 counterexample: with the unknown distro "bogus" the run does fail
with "Unknown distro", yet the directory `vms/demo` (a directory under
`vms/`) HAS been created by the time of the failure, contradicting the
claim that the failure comes before any directory under `vms/` is
created. -/
theorem create_vm_unknown_distro_cex :
    (create_vm "/h" "demo" "bogus" "alice" "secret123" envAllOk fsCached).1 = 1 ∧
    Event.logError "Unknown distro" ∈
      (create_vm "/h" "demo" "bogus" "alice" "secret123" envAllOk fsCached).2.2 ∧
    "/h/.v4m/vms/demo" ∈
      (create_vm "/h" "demo" "bogus" "alice" "secret123" envAllOk fsCached).2.1.dirs := by
  decide

/-- C1 (amended): for every distro identifier not in the catalog, the
pipeline fails with "Unknown distro" and the distro resolution itself
performs no filesystem writes, but the VM directory under `vms/` has
already been created before resolution: the final state is exactly the
initial one plus that directory. -/
theorem create_vm_unknown_distro (home vm_name distro username password : String)
    (env : Env) (fs : FS) (hurl : get_distro_url distro = none)
    (hdir : dir_exists fs (vm_dir_path home vm_name) = false) :
    create_vm home vm_name distro username password env fs =
      (1, ⟨vm_dir_path home vm_name :: fs.dirs, fs.files⟩,
       [Event.logInfo "Creating VM...", Event.logError "Unknown distro"]) ∧
    (∀ fs2 : FS, (ensure_distro home distro env fs2).2.1 = fs2) := by
  constructor
  · simp [create_vm, hdir, ensure_distro, hurl, fsMkdir]
  · intro fs2
    simp [ensure_distro, hurl]

/-- Witness for C1 (amended) at a concrete input. -/
theorem create_vm_unknown_distro_witness :
    get_distro_url "bogus" = none ∧
    dir_exists fsCached (vm_dir_path "/h" "demo") = false ∧
    (create_vm "/h" "demo" "bogus" "alice" "secret123" envAllOk fsCached =
      (1, ⟨vm_dir_path "/h" "demo" :: fsCached.dirs, fsCached.files⟩,
       [Event.logInfo "Creating VM...", Event.logError "Unknown distro"]) ∧
     (∀ fs2 : FS, (ensure_distro "/h" "bogus" envAllOk fs2).2.1 = fs2)) :=
  ⟨by decide, by decide,
   create_vm_unknown_distro "/h" "demo" "bogus" "alice" "secret123" envAllOk
     fsCached (by decide) (by decide)⟩

/-- C7 counterexample: the rand stream 0, 0, 7 produces the name
"fast-vm-7", whose numeric part has a single digit, so not every
generated name ends in a two-digit number. -/
theorem generate_vm_name_one_digit_cex :
    generate_vm_name 0 0 7 = "fast-vm-7" ∧
    isAdjNounTwoDigit (generate_vm_name 0 0 7) = false := by
  decide

/-- C7 (amended): every name produced by `generate_vm_name` is an
adjective from the fixed ten-item list, a noun from the fixed ten-item
list, and a number between 0 and 99 (so one or two decimal digits),
joined with hyphens. -/
theorem generate_vm_name_shape (r1 r2 r3 : Nat) :
    ∃ a, a ∈ adjectives ∧ ∃ n, n ∈ nouns ∧ ∃ k, k < 100 ∧
      generate_vm_name r1 r2 r3 = a ++ "-" ++ n ++ "-" ++ toString k := by
  refine ⟨adjectives.getD (r1 % 10) "", ?_, nouns.getD (r2 % 10) "", ?_,
    r3 % 100, Nat.mod_lt _ (by norm_num), rfl⟩
  · have h : r1 % 10 < adjectives.length := Nat.mod_lt _ (by simp [adjectives])
    rw [List.getD_eq_getElem _ _ h]
    exact List.getElem_mem h
  · have h : r2 % 10 < nouns.length := Nat.mod_lt _ (by simp [nouns])
    rw [List.getD_eq_getElem _ _ h]
    exact List.getElem_mem h

/-- C3 counterexample: a run in which the `dd` allocating the 64 MiB
firmware-variable file fails completes with exit 0, reaches
guest-configuration generation, writes `user-data`, reports no error at
all — and leaves no `efi-vars.fd` behind.  The allocation is not a hard
gate. -/
theorem efi_alloc_not_gate_cex :
    (create_vm "/h" "demo" "debian12" "alice" "secret123" envDdFail fsCached).1 = 0 ∧
    Event.logInfo "Configuring cloud-init..." ∈
      (create_vm "/h" "demo" "debian12" "alice" "secret123" envDdFail fsCached).2.2 ∧
    file_exists
      (create_vm "/h" "demo" "debian12" "alice" "secret123" envDdFail fsCached).2.1
      "/h/.v4m/vms/demo/user-data" = true ∧
    file_exists
      (create_vm "/h" "demo" "debian12" "alice" "secret123" envDdFail fsCached).2.1
      "/h/.v4m/vms/demo/efi-vars.fd" = false ∧
    ((create_vm "/h" "demo" "debian12" "alice" "secret123" envDdFail fsCached).2.2).any
      isErrorEvent = false := by
  decide

/-- C3 (amended): the firmware-variable allocation is not a hard gate:
its exit status is ignored, and on its failure the pipeline continues to
guest-configuration generation and (when every later collaborator
succeeds) completes with exit 0 and no error report.  Hypotheses fix the
run: catalogued distro with a cached image, fresh VM name, disk steps
succeeding, the `dd` failing, and all later collaborators succeeding. -/
theorem efi_alloc_ignored (home vm_name distro username password url raw : String)
    (d : FileData) (env : Env) (fs : FS)
    (hurl : get_distro_url distro = some url)
    (hread : fsRead fs (distro_cache_path home distro url) = some d)
    (hdir : dir_exists fs (vm_dir_path home vm_name) = false)
    (hdd : env.ddOk = false)
    (hresize : env.resizeOk = true)
    (hhash : env.hashOut = some raw)
    (hud : env.userDataOpenOk = true)
    (hmd : env.metaDataOpenOk = true)
    (hiso : env.isoOk = true)
    (hqemu : env.qemuOk = true) :
    (create_vm home vm_name distro username password env fs).1 = 0 ∧
    Event.logInfo "Configuring cloud-init..." ∈
      (create_vm home vm_name distro username password env fs).2.2 ∧
    ((create_vm home vm_name distro username password env fs).2.2).any
      isErrorEvent = false := by
  have hfe : file_exists fs
      (home ++ "/.v4m/distros/" ++ distro ++ "/" ++ url_basename url) = true := by
    have h2 := file_exists_of_fsRead _ _ _ hread
    simpa [distro_cache_path] using h2
  have hread2 : fsRead fs
      (home ++ "/.v4m/distros/" ++ distro ++ "/" ++ url_basename url) = some d := by
    simpa [distro_cache_path] using hread
  have d1 : ¬ (vm_dir_path home vm_name ++ "/meta-data" =
      vm_dir_path home vm_name ++ "/user-data") :=
    append_ne_of_suffix_ne _ (by decide)
  have d2 : ¬ (temp_dir_path env.pid ++ "/user-data" =
      vm_dir_path home vm_name ++ "/meta-data") :=
    append_ne_cross _ _ (by decide) (by decide)
  simp [create_vm, hdir, ensure_distro, hurl, file_exists_fsMkdir, hfe,
        copy_file, fsRead_fsMkdir, hread2, hresize, hdd, create_cloud_init,
        hash_password, hhash, hud, hmd, hiso, start_vm, hqemu, isErrorEvent,
        fsRead_fsWrite_ne, fsRead_fsWrite_self, d1, d2]

/-- Witness for C3 (amended) at a concrete input. -/
theorem efi_alloc_ignored_witness :
    get_distro_url "debian12" = some debianUrl ∧
    fsRead fsCached (distro_cache_path "/h" "debian12" debianUrl) =
      some (FileData.downloaded debianUrl) ∧
    dir_exists fsCached (vm_dir_path "/h" "demo") = false ∧
    envDdFail.ddOk = false ∧
    ((create_vm "/h" "demo" "debian12" "alice" "secret123" envDdFail fsCached).1 = 0 ∧
     Event.logInfo "Configuring cloud-init..." ∈
       (create_vm "/h" "demo" "debian12" "alice" "secret123" envDdFail fsCached).2.2 ∧
     ((create_vm "/h" "demo" "debian12" "alice" "secret123" envDdFail fsCached).2.2).any
       isErrorEvent = false) :=
  ⟨by decide, by decide, by decide, by decide,
   efi_alloc_ignored "/h" "demo" "debian12" "alice" "secret123" debianUrl "HASH\n"
     (FileData.downloaded debianUrl) envDdFail fsCached (by decide) (by decide)
     (by decide) (by decide) (by decide) (by decide) (by decide) (by decide)
     (by decide) (by decide)⟩

/-- C2 counterexample: on ISO-packaging failure — a failure after the
disk-provisioning stage — the already-created VM directory and its files
are NOT left in place: the code runs `rm -rf` on the VM directory, so
after the failed run the directory and the provisioned disk are gone. -/
theorem iso_failure_removes_vm_dir_cex :
    (create_vm "/h" "demo" "debian12" "alice" "secret123" envIsoFail fsCached).1 = 1 ∧
    Event.logError "Failed to create cloud-init ISO" ∈
      (create_vm "/h" "demo" "debian12" "alice" "secret123" envIsoFail fsCached).2.2 ∧
    dir_exists
      (create_vm "/h" "demo" "debian12" "alice" "secret123" envIsoFail fsCached).2.1
      "/h/.v4m/vms/demo" = false ∧
    file_exists
      (create_vm "/h" "demo" "debian12" "alice" "secret123" envIsoFail fsCached).2.1
      "/h/.v4m/vms/demo/disk.qcow2" = false := by
  decide

/-- C2 (amended): after the disk-provisioning stage, a password-hashing
failure or a hypervisor start failure leaves the VM directory and its
files (disk, and for the launch case also the configuration ISO) in
place with no rollback; an ISO-packaging failure however tears down the
VM directory and its files (`rm -rf` of scratch and VM directories).
`envH`, `envQ`, `envI` fix the three failing runs; the separation
hypotheses say the scratch directory does not alias the VM directory. -/
theorem post_disk_failure_effects (home vm_name distro username password url
    raw : String) (d : FileData) (envH envQ envI : Env) (fs : FS)
    (hurl : get_distro_url distro = some url)
    (hread : fsRead fs (distro_cache_path home distro url) = some d)
    (hdir : dir_exists fs (vm_dir_path home vm_name) = false)
    (h1a : envH.resizeOk = true) (h1b : envH.ddOk = true)
    (h1c : envH.hashOut = none)
    (h2a : envQ.resizeOk = true) (h2b : envQ.ddOk = true)
    (h2c : envQ.hashOut = some raw)
    (h2d : envQ.userDataOpenOk = true) (h2e : envQ.metaDataOpenOk = true)
    (h2f : envQ.isoOk = true) (h2g : envQ.vmInfoOpenOk = true)
    (h2h : envQ.qemuOk = false)
    (hq1 : ((vm_dir_path home vm_name == temp_dir_path envQ.pid) ||
      pathHasPre (temp_dir_path envQ.pid ++ "/")
        (vm_dir_path home vm_name)) = false)
    (hq2 : ((vm_dir_path home vm_name ++ "/disk.qcow2" ==
        temp_dir_path envQ.pid) ||
      pathHasPre (temp_dir_path envQ.pid ++ "/")
        (vm_dir_path home vm_name ++ "/disk.qcow2")) = false)
    (hq3 : ((vm_dir_path home vm_name ++ "/cloud-init.iso" ==
        temp_dir_path envQ.pid) ||
      pathHasPre (temp_dir_path envQ.pid ++ "/")
        (vm_dir_path home vm_name ++ "/cloud-init.iso")) = false)
    (h3a : envI.resizeOk = true) (h3b : envI.ddOk = true)
    (h3c : envI.hashOut = some raw)
    (h3d : envI.userDataOpenOk = true) (h3e : envI.metaDataOpenOk = true)
    (h3f : envI.isoOk = false) :
    ((create_vm home vm_name distro username password envH fs).1 = 1 ∧
     Event.logError "Failed to hash password" ∈
       (create_vm home vm_name distro username password envH fs).2.2 ∧
     dir_exists (create_vm home vm_name distro username password envH fs).2.1
       (vm_dir_path home vm_name) = true ∧
     file_exists (create_vm home vm_name distro username password envH fs).2.1
       (vm_dir_path home vm_name ++ "/disk.qcow2") = true) ∧
    ((create_vm home vm_name distro username password envQ fs).1 = 1 ∧
     Event.logError "Failed to start QEMU" ∈
       (create_vm home vm_name distro username password envQ fs).2.2 ∧
     dir_exists (create_vm home vm_name distro username password envQ fs).2.1
       (vm_dir_path home vm_name) = true ∧
     file_exists (create_vm home vm_name distro username password envQ fs).2.1
       (vm_dir_path home vm_name ++ "/disk.qcow2") = true ∧
     file_exists (create_vm home vm_name distro username password envQ fs).2.1
       (vm_dir_path home vm_name ++ "/cloud-init.iso") = true) ∧
    ((create_vm home vm_name distro username password envI fs).1 = 1 ∧
     Event.logError "Failed to create cloud-init ISO" ∈
       (create_vm home vm_name distro username password envI fs).2.2 ∧
     dir_exists (create_vm home vm_name distro username password envI fs).2.1
       (vm_dir_path home vm_name) = false ∧
     file_exists (create_vm home vm_name distro username password envI fs).2.1
       (vm_dir_path home vm_name ++ "/disk.qcow2") = false) := by
  have hfe : file_exists fs
      (home ++ "/.v4m/distros/" ++ distro ++ "/" ++ url_basename url) = true := by
    have h2 := file_exists_of_fsRead _ _ _ hread
    simpa [distro_cache_path] using h2
  have hread2 : fsRead fs
      (home ++ "/.v4m/distros/" ++ distro ++ "/" ++ url_basename url) = some d := by
    simpa [distro_cache_path] using hread
  have dMdUd : ¬ (vm_dir_path home vm_name ++ "/meta-data" =
      vm_dir_path home vm_name ++ "/user-data") :=
    append_ne_of_suffix_ne _ (by decide)
  have dEfiDisk : ¬ (vm_dir_path home vm_name ++ "/efi-vars.fd" =
      vm_dir_path home vm_name ++ "/disk.qcow2") :=
    append_ne_of_suffix_ne _ (by decide)
  have dUdDisk : ¬ (vm_dir_path home vm_name ++ "/user-data" =
      vm_dir_path home vm_name ++ "/disk.qcow2") :=
    append_ne_of_suffix_ne _ (by decide)
  have dMdDisk : ¬ (vm_dir_path home vm_name ++ "/meta-data" =
      vm_dir_path home vm_name ++ "/disk.qcow2") :=
    append_ne_of_suffix_ne _ (by decide)
  have dIsoDisk : ¬ (vm_dir_path home vm_name ++ "/cloud-init.iso" =
      vm_dir_path home vm_name ++ "/disk.qcow2") :=
    append_ne_of_suffix_ne _ (by decide)
  have dViDisk : ¬ (vm_dir_path home vm_name ++ "/vm-info.json" =
      vm_dir_path home vm_name ++ "/disk.qcow2") :=
    append_ne_of_suffix_ne _ (by decide)
  have dClDisk : ¬ (vm_dir_path home vm_name ++ "/console.log" =
      vm_dir_path home vm_name ++ "/disk.qcow2") :=
    append_ne_of_suffix_ne _ (by decide)
  have dPidDisk : ¬ (vm_dir_path home vm_name ++ "/vm.pid" =
      vm_dir_path home vm_name ++ "/disk.qcow2") :=
    append_ne_of_suffix_ne _ (by decide)
  have dMonDisk : ¬ (vm_dir_path home vm_name ++ "/disk.qcow2" =
      vm_dir_path home vm_name ++ "/monitor.sock") :=
    append_ne_of_suffix_ne _ (by decide)
  have dViIso : ¬ (vm_dir_path home vm_name ++ "/vm-info.json" =
      vm_dir_path home vm_name ++ "/cloud-init.iso") :=
    append_ne_of_suffix_ne _ (by decide)
  have dClIso : ¬ (vm_dir_path home vm_name ++ "/console.log" =
      vm_dir_path home vm_name ++ "/cloud-init.iso") :=
    append_ne_of_suffix_ne _ (by decide)
  have dPidIso : ¬ (vm_dir_path home vm_name ++ "/vm.pid" =
      vm_dir_path home vm_name ++ "/cloud-init.iso") :=
    append_ne_of_suffix_ne _ (by decide)
  have dMonIso : ¬ (vm_dir_path home vm_name ++ "/cloud-init.iso" =
      vm_dir_path home vm_name ++ "/monitor.sock") :=
    append_ne_of_suffix_ne _ (by decide)
  have dTuMdQ : ¬ (temp_dir_path envQ.pid ++ "/user-data" =
      vm_dir_path home vm_name ++ "/meta-data") :=
    append_ne_rev_take _ _ _ _ 9 (by decide) (by decide) (by decide)
  have dTuDiskQ : ¬ (temp_dir_path envQ.pid ++ "/user-data" =
      vm_dir_path home vm_name ++ "/disk.qcow2") :=
    append_ne_rev_take _ _ _ _ 9 (by decide) (by decide) (by decide)
  have dTmDiskQ : ¬ (temp_dir_path envQ.pid ++ "/meta-data" =
      vm_dir_path home vm_name ++ "/disk.qcow2") :=
    append_ne_rev_take _ _ _ _ 9 (by decide) (by decide) (by decide)
  have dTuIsoQ : ¬ (temp_dir_path envQ.pid ++ "/user-data" =
      vm_dir_path home vm_name ++ "/cloud-init.iso") :=
    append_ne_rev_take _ _ _ _ 9 (by decide) (by decide) (by decide)
  have dTmIsoQ : ¬ (temp_dir_path envQ.pid ++ "/meta-data" =
      vm_dir_path home vm_name ++ "/cloud-init.iso") :=
    append_ne_rev_take _ _ _ _ 9 (by decide) (by decide) (by decide)
  have dTuMdI : ¬ (temp_dir_path envI.pid ++ "/user-data" =
      vm_dir_path home vm_name ++ "/meta-data") :=
    append_ne_rev_take _ _ _ _ 9 (by decide) (by decide) (by decide)
  have hg1 : pathHasPre "/" "/disk.qcow2" = true := by decide
  refine ⟨?_, ?_, ?_⟩
  · simp [create_vm, hdir, ensure_distro, hurl, file_exists_fsMkdir, hfe,
      copy_file, fsRead_fsMkdir, hread2, h1a, h1b, create_cloud_init,
      hash_password, h1c, file_exists_fsWrite, dir_exists_fsWrite,
      dir_exists_fsMkdir, dEfiDisk]
  · simp [create_vm, hdir, ensure_distro, hurl, file_exists_fsMkdir, hfe,
      copy_file, fsRead_fsMkdir, hread2, h2a, h2b, create_cloud_init,
      hash_password, h2c, h2d, h2e, h2f, h2g, h2h, start_vm,
      fsRead_fsWrite_ne, fsRead_fsWrite_self, dMdUd, dTuMdQ,
      file_exists_fsWrite, file_exists_fsRemove, file_exists_fsRmrf,
      dir_exists_fsWrite, dir_exists_fsRemove, dir_exists_fsRmrf,
      dir_exists_fsMkdir, hq1, hq2, hq3, dEfiDisk, dUdDisk, dMdDisk,
      dIsoDisk, dViDisk, dClDisk, dPidDisk, dMonDisk, dViIso, dClIso,
      dPidIso, dMonIso, dTuDiskQ, dTmDiskQ, dTuIsoQ, dTmIsoQ]
  · simp [create_vm, hdir, ensure_distro, hurl, file_exists_fsMkdir, hfe,
      copy_file, fsRead_fsMkdir, hread2, h3a, h3b, create_cloud_init,
      hash_password, h3c, h3d, h3e, h3f, fsRead_fsWrite_ne,
      fsRead_fsWrite_self, dMdUd, dTuMdI, file_exists_fsRmrf,
      dir_exists_fsRmrf, pathHasPre_same_root, hg1]

/-- Witness for C2 (amended) at concrete inputs. -/
theorem post_disk_failure_effects_witness :
    get_distro_url "debian12" = some debianUrl ∧
    fsRead fsCached (distro_cache_path "/h" "debian12" debianUrl) =
      some (FileData.downloaded debianUrl) ∧
    dir_exists fsCached (vm_dir_path "/h" "demo") = false ∧
    (((create_vm "/h" "demo" "debian12" "alice" "secret123" envHashFail fsCached).1 = 1 ∧
      Event.logError "Failed to hash password" ∈
        (create_vm "/h" "demo" "debian12" "alice" "secret123" envHashFail fsCached).2.2 ∧
      dir_exists
        (create_vm "/h" "demo" "debian12" "alice" "secret123" envHashFail fsCached).2.1
        (vm_dir_path "/h" "demo") = true ∧
      file_exists
        (create_vm "/h" "demo" "debian12" "alice" "secret123" envHashFail fsCached).2.1
        (vm_dir_path "/h" "demo" ++ "/disk.qcow2") = true) ∧
     ((create_vm "/h" "demo" "debian12" "alice" "secret123" envQemuFail fsCached).1 = 1 ∧
      Event.logError "Failed to start QEMU" ∈
        (create_vm "/h" "demo" "debian12" "alice" "secret123" envQemuFail fsCached).2.2 ∧
      dir_exists
        (create_vm "/h" "demo" "debian12" "alice" "secret123" envQemuFail fsCached).2.1
        (vm_dir_path "/h" "demo") = true ∧
      file_exists
        (create_vm "/h" "demo" "debian12" "alice" "secret123" envQemuFail fsCached).2.1
        (vm_dir_path "/h" "demo" ++ "/disk.qcow2") = true ∧
      file_exists
        (create_vm "/h" "demo" "debian12" "alice" "secret123" envQemuFail fsCached).2.1
        (vm_dir_path "/h" "demo" ++ "/cloud-init.iso") = true) ∧
     ((create_vm "/h" "demo" "debian12" "alice" "secret123" envIsoFail fsCached).1 = 1 ∧
      Event.logError "Failed to create cloud-init ISO" ∈
        (create_vm "/h" "demo" "debian12" "alice" "secret123" envIsoFail fsCached).2.2 ∧
      dir_exists
        (create_vm "/h" "demo" "debian12" "alice" "secret123" envIsoFail fsCached).2.1
        (vm_dir_path "/h" "demo") = false ∧
      file_exists
        (create_vm "/h" "demo" "debian12" "alice" "secret123" envIsoFail fsCached).2.1
        (vm_dir_path "/h" "demo" ++ "/disk.qcow2") = false)) :=
  ⟨by decide, by decide, by decide,
   post_disk_failure_effects "/h" "demo" "debian12" "alice" "secret123"
     debianUrl "HASH\n" (FileData.downloaded debianUrl) envHashFail envQemuFail
     envIsoFail fsCached (by decide) (by decide) (by decide) (by decide)
     (by decide) (by decide) (by decide) (by decide) (by decide) (by decide)
     (by decide) (by decide) (by decide) (by decide) (by decide) (by decide)
     (by decide) (by decide) (by decide) (by decide) (by decide) (by decide)
     (by decide)⟩

/-- C8 counterexample: when opening `vm-info.json` for writing fails, the
pipeline does proceed to launch (exit 0, "Starting VM..." logged) — but
nothing is reported: the run emits no error and no warning event, while
the metadata record is indeed absent.  The claimed "failure is reported
to the user" is false. -/
theorem vm_info_write_failure_silent_cex :
    (create_vm "/h" "demo" "debian12" "alice" "secret123" envVmInfoFail fsCached).1 = 0 ∧
    file_exists
      (create_vm "/h" "demo" "debian12" "alice" "secret123" envVmInfoFail fsCached).2.1
      "/h/.v4m/vms/demo/vm-info.json" = false ∧
    ((create_vm "/h" "demo" "debian12" "alice" "secret123" envVmInfoFail fsCached).2.2).any
      isErrorEvent = false ∧
    ((create_vm "/h" "demo" "debian12" "alice" "secret123" envVmInfoFail fsCached).2.2).any
      isWarnEvent = false ∧
    Event.logInfo "Starting VM..." ∈
      (create_vm "/h" "demo" "debian12" "alice" "secret123" envVmInfoFail fsCached).2.2 := by
  decide

/-- C8 (amended): if opening the vm-info metadata record for writing
fails, the failure is silently ignored — no error or warning is reported
— and the pipeline still proceeds to launch the VM, completing with exit
0; the metadata record is simply absent afterwards. -/
theorem vm_info_write_failure_silent (home vm_name distro username password url
    raw : String) (d : FileData) (env : Env) (fs : FS)
    (hurl : get_distro_url distro = some url)
    (hread : fsRead fs (distro_cache_path home distro url) = some d)
    (hdir : dir_exists fs (vm_dir_path home vm_name) = false)
    (hvi0 : file_exists fs (vm_dir_path home vm_name ++ "/vm-info.json") = false)
    (ha : env.resizeOk = true) (hb : env.ddOk = true)
    (hc : env.hashOut = some raw)
    (hd : env.userDataOpenOk = true) (he : env.metaDataOpenOk = true)
    (hf : env.isoOk = true) (hg : env.vmInfoOpenOk = false)
    (hh : env.qemuOk = true)
    (hsep : ((vm_dir_path home vm_name ++ "/vm-info.json" ==
        temp_dir_path env.pid) ||
      pathHasPre (temp_dir_path env.pid ++ "/")
        (vm_dir_path home vm_name ++ "/vm-info.json")) = false) :
    (create_vm home vm_name distro username password env fs).1 = 0 ∧
    Event.logInfo "Starting VM..." ∈
      (create_vm home vm_name distro username password env fs).2.2 ∧
    ((create_vm home vm_name distro username password env fs).2.2).any
      isErrorEvent = false ∧
    ((create_vm home vm_name distro username password env fs).2.2).any
      isWarnEvent = false ∧
    file_exists (create_vm home vm_name distro username password env fs).2.1
      (vm_dir_path home vm_name ++ "/vm-info.json") = false := by
  have hfe : file_exists fs
      (home ++ "/.v4m/distros/" ++ distro ++ "/" ++ url_basename url) = true := by
    have h2 := file_exists_of_fsRead _ _ _ hread
    simpa [distro_cache_path] using h2
  have hread2 : fsRead fs
      (home ++ "/.v4m/distros/" ++ distro ++ "/" ++ url_basename url) = some d := by
    simpa [distro_cache_path] using hread
  have dMdUd : ¬ (vm_dir_path home vm_name ++ "/meta-data" =
      vm_dir_path home vm_name ++ "/user-data") :=
    append_ne_of_suffix_ne _ (by decide)
  have dTuMd : ¬ (temp_dir_path env.pid ++ "/user-data" =
      vm_dir_path home vm_name ++ "/meta-data") :=
    append_ne_rev_take _ _ _ _ 9 (by decide) (by decide) (by decide)
  have dDiskVi : ¬ (vm_dir_path home vm_name ++ "/disk.qcow2" =
      vm_dir_path home vm_name ++ "/vm-info.json") :=
    append_ne_of_suffix_ne _ (by decide)
  have dEfiVi : ¬ (vm_dir_path home vm_name ++ "/efi-vars.fd" =
      vm_dir_path home vm_name ++ "/vm-info.json") :=
    append_ne_of_suffix_ne _ (by decide)
  have dUdVi : ¬ (vm_dir_path home vm_name ++ "/user-data" =
      vm_dir_path home vm_name ++ "/vm-info.json") :=
    append_ne_of_suffix_ne _ (by decide)
  have dMdVi : ¬ (vm_dir_path home vm_name ++ "/meta-data" =
      vm_dir_path home vm_name ++ "/vm-info.json") :=
    append_ne_of_suffix_ne _ (by decide)
  have dIsoVi : ¬ (vm_dir_path home vm_name ++ "/cloud-init.iso" =
      vm_dir_path home vm_name ++ "/vm-info.json") :=
    append_ne_of_suffix_ne _ (by decide)
  have dClVi : ¬ (vm_dir_path home vm_name ++ "/console.log" =
      vm_dir_path home vm_name ++ "/vm-info.json") :=
    append_ne_of_suffix_ne _ (by decide)
  have dPidVi : ¬ (vm_dir_path home vm_name ++ "/vm.pid" =
      vm_dir_path home vm_name ++ "/vm-info.json") :=
    append_ne_of_suffix_ne _ (by decide)
  have dMonVi : ¬ (vm_dir_path home vm_name ++ "/vm-info.json" =
      vm_dir_path home vm_name ++ "/monitor.sock") :=
    append_ne_of_suffix_ne _ (by decide)
  have dTuVi : ¬ (temp_dir_path env.pid ++ "/user-data" =
      vm_dir_path home vm_name ++ "/vm-info.json") :=
    append_ne_rev_take _ _ _ _ 9 (by decide) (by decide) (by decide)
  have dTmVi : ¬ (temp_dir_path env.pid ++ "/meta-data" =
      vm_dir_path home vm_name ++ "/vm-info.json") :=
    append_ne_rev_take _ _ _ _ 9 (by decide) (by decide) (by decide)
  simp [create_vm, hdir, ensure_distro, hurl, file_exists_fsMkdir, hfe,
    copy_file, fsRead_fsMkdir, hread2, ha, hb, create_cloud_init,
    hash_password, hc, hd, he, hf, hg, hh, start_vm, fsRead_fsWrite_ne,
    fsRead_fsWrite_self, dMdUd, dTuMd, isErrorEvent, isWarnEvent,
    file_exists_fsWrite, file_exists_fsRemove, file_exists_fsRmrf, hsep,
    dDiskVi, dEfiVi, dUdVi, dMdVi, dIsoVi, dClVi, dPidVi, dMonVi, dTuVi,
    dTmVi, hvi0]

/-- Witness for C8 (amended) at a concrete input. -/
theorem vm_info_write_failure_silent_witness :
    get_distro_url "debian12" = some debianUrl ∧
    fsRead fsCached (distro_cache_path "/h" "debian12" debianUrl) =
      some (FileData.downloaded debianUrl) ∧
    dir_exists fsCached (vm_dir_path "/h" "demo") = false ∧
    envVmInfoFail.vmInfoOpenOk = false ∧
    ((create_vm "/h" "demo" "debian12" "alice" "secret123" envVmInfoFail fsCached).1 = 0 ∧
     Event.logInfo "Starting VM..." ∈
       (create_vm "/h" "demo" "debian12" "alice" "secret123" envVmInfoFail fsCached).2.2 ∧
     ((create_vm "/h" "demo" "debian12" "alice" "secret123" envVmInfoFail fsCached).2.2).any
       isErrorEvent = false ∧
     ((create_vm "/h" "demo" "debian12" "alice" "secret123" envVmInfoFail fsCached).2.2).any
       isWarnEvent = false ∧
     file_exists
       (create_vm "/h" "demo" "debian12" "alice" "secret123" envVmInfoFail fsCached).2.1
       (vm_dir_path "/h" "demo" ++ "/vm-info.json") = false) :=
  ⟨by decide, by decide, by decide, by decide,
   vm_info_write_failure_silent "/h" "demo" "debian12" "alice" "secret123"
     debianUrl "HASH\n" (FileData.downloaded debianUrl) envVmInfoFail fsCached
     (by decide) (by decide) (by decide) (by decide) (by decide) (by decide)
     (by decide) (by decide) (by decide) (by decide) (by decide) (by decide)
     (by decide)⟩

/-- C6: under an environment whose hashing subprocess returns a line, the
cloud-init builder writes the `user-data` document built from the VM
name, the username and the newline-stripped hash; that document contains
the VM name as hostname and as FQDN and the requested username, and —
given that the hasher output is non-empty and differs from the plaintext
(the contract of `openssl passwd -6`) — a password-hash field that is
non-empty and distinct from the plaintext password, carried identically
by the user account and the root account. -/
theorem user_data_contract (vm_name username password vm_dir raw : String)
    (env : Env) (fs : FS)
    (hhash : env.hashOut = some raw)
    (hud : env.userDataOpenOk = true) (hmd : env.metaDataOpenOk = true)
    (hne : ¬ stripNewline raw = "") (hdist : ¬ stripNewline raw = password) :
    fsRead (create_cloud_init vm_name username password vm_dir env fs).2.1
      (vm_dir ++ "/user-data") =
      some (FileData.text
        (userDataContent vm_name username (stripNewline raw))) ∧
    ("hostname: " ++ vm_name ++ "\n") ∈
      userDataChunks vm_name username (stripNewline raw) ∧
    ("fqdn: " ++ vm_name ++ ".local\n") ∈
      userDataChunks vm_name username (stripNewline raw) ∧
    ("  - name: " ++ username ++ "\n") ∈
      userDataChunks vm_name username (stripNewline raw) ∧
    ("    passwd: " ++ stripNewline raw ++ "\n") ∈
      userDataChunks vm_name username (stripNewline raw) ∧
    ("    passwd: " ++ stripNewline raw ++ "\n\n") ∈
      userDataChunks vm_name username (stripNewline raw) ∧
    ¬ stripNewline raw = "" ∧ ¬ stripNewline raw = password := by
  have dMdUd : ¬ (vm_dir ++ "/meta-data" = vm_dir ++ "/user-data") :=
    append_ne_of_suffix_ne _ (by decide)
  refine ⟨?_, ?_, ?_, ?_, ?_, ?_, hne, hdist⟩
  · simp [create_cloud_init, hash_password, hhash, hud, hmd,
      fsRead_fsWrite_ne, fsRead_fsWrite_self, dMdUd]
  · simp [userDataChunks]
  · simp [userDataChunks]
  · simp [userDataChunks]
  · simp [userDataChunks]
  · simp [userDataChunks]

/-- Witness for C6 at a concrete input. -/
theorem user_data_contract_witness :
    envAllOk.hashOut = some "HASH\n" ∧
    ¬ stripNewline "HASH\n" = "" ∧
    ¬ stripNewline "HASH\n" = "secret123" ∧
    (fsRead (create_cloud_init "demo" "alice" "secret123" "/h/.v4m/vms/demo"
        envAllOk fsCached).2.1 ("/h/.v4m/vms/demo" ++ "/user-data") =
      some (FileData.text
        (userDataContent "demo" "alice" (stripNewline "HASH\n"))) ∧
     ("hostname: " ++ "demo" ++ "\n") ∈
       userDataChunks "demo" "alice" (stripNewline "HASH\n") ∧
     ("fqdn: " ++ "demo" ++ ".local\n") ∈
       userDataChunks "demo" "alice" (stripNewline "HASH\n") ∧
     ("  - name: " ++ "alice" ++ "\n") ∈
       userDataChunks "demo" "alice" (stripNewline "HASH\n") ∧
     ("    passwd: " ++ stripNewline "HASH\n" ++ "\n") ∈
       userDataChunks "demo" "alice" (stripNewline "HASH\n") ∧
     ("    passwd: " ++ stripNewline "HASH\n" ++ "\n\n") ∈
       userDataChunks "demo" "alice" (stripNewline "HASH\n") ∧
     ¬ stripNewline "HASH\n" = "" ∧
     ¬ stripNewline "HASH\n" = "secret123") :=
  ⟨by decide, by decide, by decide,
   user_data_contract "demo" "alice" "secret123" "/h/.v4m/vms/demo" "HASH\n"
     envAllOk fsCached (by decide) (by decide) (by decide) (by decide)
     (by decide)⟩

/-- C9: giving `--name` (or `--pass`) the empty string as value behaves
exactly like never having received a name (or password): the parse state
is reset to the initial empty value, the whole argument handling gives
the same result as without the flag, and an empty collected name or
password is then replaced by a generated one. -/
theorem empty_flag_value_like_omitted (rest : List String) (n d u p : String)
    (r1 r2 r3 : Nat) (popenRes : Option (Option String)) (seed st : Nat) :
    parse_args ("--name" :: "" :: rest) n d u p = parse_args rest "" d u p ∧
    parse_args ("--pass" :: "" :: rest) n d u p = parse_args rest n d u "" ∧
    main_args ("--name" :: "" :: rest) r1 r2 r3 popenRes seed st =
      main_args rest r1 r2 r3 popenRes seed st ∧
    main_args ("--pass" :: "" :: rest) r1 r2 r3 popenRes seed st =
      main_args rest r1 r2 r3 popenRes seed st ∧
    main_args ["--name", "", "--pass", ""] r1 r2 r3 popenRes seed st =
      some (generate_vm_name r1 r2 r3, DEFAULT_DISTRO, DEFAULT_USER,
        generate_password popenRes seed st "") := by
  have h0 : strncpy255 "" = "" := by decide
  have hn : ∀ (xs : List String) (a b c e : String),
      parse_args ("--name" :: "" :: xs) a b c e = parse_args xs "" b c e := by
    intro xs a b c e
    simp [parse_args, h0]
  have hp : ∀ (xs : List String) (a b c e : String),
      parse_args ("--pass" :: "" :: xs) a b c e = parse_args xs a b c "" := by
    intro xs a b c e
    simp [parse_args, h0]
  refine ⟨hn rest n d u p, hp rest n d u p, ?_, ?_, ?_⟩
  · simp only [main_args, hn]
  · simp only [main_args, hp]
  · simp [main_args, hn, hp, parse_args, h0]

/-- Reaching into the character table never leaves it. -/
theorem password_chars_getD_mem (k : Nat) :
    password_chars.getD k 'A' ∈ password_chars := by
  by_cases hk : k < password_chars.length
  · rw [List.getD_eq_getElem _ _ hk]
    exact List.getElem_mem hk
  · rw [List.getD_eq_default _ _ (Nat.le_of_not_lt hk)]
    decide

/-- The password loop produces exactly as many characters as asked, on
top of the accumulator. -/
theorem password_loop_length (n : Nat) :
    ∀ st acc, (password_loop n st acc).1.length = n + acc.length := by
  induction n with
  | zero => intro st acc; simp [password_loop]
  | succ k ih =>
    intro st acc
    rw [password_loop, ih]
    simp
    omega

/-- Every character the password loop produces comes from the character
table or from the accumulator. -/
theorem password_loop_chars (n : Nat) :
    ∀ st acc c, c ∈ (password_loop n st acc).1 →
      c ∈ password_chars ∨ c ∈ acc := by
  induction n with
  | zero =>
    intro st acc c hc
    simp [password_loop] at hc
    exact Or.inr hc
  | succ k ih =>
    intro st acc c hc
    rw [password_loop] at hc
    rcases ih _ _ c hc with h | h
    · exact Or.inl h
    · rcases List.mem_cons.mp h with h | h
      · subst h
        exact Or.inl (password_chars_getD_mem _)
      · exact Or.inr h

/-- C10: the fallback (non-secure) branch of `generate_password` is
deterministic in the wall-clock seed: whatever hidden generator state
existed before, seeding with the same time value yields the identical
password, which has exactly 12 characters, all from the alphanumeric
table. -/
theorem generate_password_fallback_deterministic (seed st1 st2 : Nat) :
    generate_password_fallback seed st1 = generate_password_fallback seed st2 ∧
    (generate_password_fallback seed st1).length = 12 ∧
    ∀ c ∈ (generate_password_fallback seed st1).data, c ∈ password_chars := by
  refine ⟨rfl, ?_, ?_⟩
  · show (password_loop 12 (srand seed st1) []).1.length = 12
    rw [password_loop_length]
    rfl
  · intro c hc
    have h2 : c ∈ (password_loop 12 (srand seed st1) []).1 := hc
    rcases password_loop_chars 12 _ _ c h2 with h | h
    · exact h
    · cases h

end V4m
